import Mathlib

/-!
Verification of the static test-file HTTP server
(src/test3/start-test-server.py) against its specification.

The program is a thin wrapper around the Python standard library's
SimpleHTTPRequestHandler: it changes the working directory to the script's
own directory at module load, overrides end_headers to append three CORS
headers, binds a TCPServer on port 8000 on all interfaces, prints a banner,
and serves until KeyboardInterrupt; OSError during bind is reported
(specially when errno == 48), other exceptions propagate.

The shallow embedding below models the script's own code directly from the
source; the standard-library pieces it delegates to (header buffering,
static-file path resolution and GET handling) are modelled from the spec,
as marked on each definition.
-/

namespace TestServer

/-- The fixed listening port, line 14 of the source: PORT = 8000. -/
def PORT : Nat := 8000

/-- The host part of the bind address, line 26: TCPServer(("", PORT), ...).
An empty host means all local interfaces. -/
def bindHost : String := ""

/-- Platforms the script may run on. -/
inductive Platform where
  | linux
  | macos
  | windows
deriving DecidableEq

/-- Modelled from the spec: the platform-appropriate numeric code of the
address-already-in-use error condition (the spec's open question notes the
source hardcodes a single numeric code while the condition is
platform-specific): EADDRINUSE is 98 on Linux, 48 on macOS and the BSDs,
and 10048 (WSAEADDRINUSE) on Windows. -/
def eaddrinuse : Platform → Nat
  | .linux => 98
  | .macos => 48
  | .windows => 10048

/-! ### Header handling -/

/-- State of a response's header block while the handler builds it. -/
structure HandlerState where
  headersSent : List (String × String)
  headersEnded : Bool
deriving DecidableEq

/-- Modelled from the spec: BaseHTTPRequestHandler.send_header (stdlib, not
under src/) appends one header to the pending header block. -/
def send_header (s : HandlerState) (k v : String) : HandlerState :=
  { s with headersSent := s.headersSent ++ [(k, v)] }

/-- Modelled from the spec: BaseHTTPRequestHandler.end_headers (stdlib, not
under src/) finalizes the header block, after which no header can be
added. -/
def base_end_headers (s : HandlerState) : HandlerState :=
  { s with headersEnded := true }

/-- MyHTTPRequestHandler.end_headers, lines 17 to 22 of the source: sends the
three CORS headers and then delegates to the superclass end_headers. -/
def end_headers (s : HandlerState) : HandlerState :=
  base_end_headers
    (send_header
      (send_header
        (send_header s "Access-Control-Allow-Origin" "*")
        "Access-Control-Allow-Methods" "GET, POST, OPTIONS")
      "Access-Control-Allow-Headers" "Content-Type")

/-- The three CORS headers the handler adds, in order. -/
def corsHeaders : List (String × String) :=
  [("Access-Control-Allow-Origin", "*"),
   ("Access-Control-Allow-Methods", "GET, POST, OPTIONS"),
   ("Access-Control-Allow-Headers", "Content-Type")]

/-! ### Static file serving (delegated to the stdlib, modelled from the spec) -/

/-- Modelled from the spec: content-type inference from the file name
(stdlib guess_type, not under src/). -/
def guessType (p : List String) : String :=
  match p.getLast? with
  | some name =>
      if name.endsWith ".html" then "text/html"
      else if name.endsWith ".js" then "text/javascript"
      else if name.endsWith ".css" then "text/css"
      else "application/octet-stream"
  | none => "application/octet-stream"

/-- Modelled from the spec: path resolution of the stdlib static file server
(SimpleHTTPRequestHandler.translate_path, not under src/): the request path
is split into segments and every segment that is empty, the
current-directory marker or the parent-directory marker is ignored; the
remaining segments are joined under the serving root. -/
def translate_path (root : List String) (reqSegs : List String) : List String :=
  root ++ reqSegs.filter (fun w => !(w == "" || w == "." || w == ".."))

/-- An HTTP response: status code, header block and body bytes. -/
structure Response where
  status : Nat
  headers : List (String × String)
  body : List Nat
deriving DecidableEq

/-- Header block of a 200 response: the content-type header followed by
whatever the handler's end_headers appends before finalization. -/
def serve200Headers (p : List String) : List (String × String) :=
  (end_headers { headersSent := [("Content-type", guessType p)], headersEnded := false }).headersSent

/-- Header block of a 404 error response, likewise finalized through the
handler's end_headers. -/
def serve404Headers : List (String × String) :=
  (end_headers { headersSent := [("Content-type", "text/html;charset=utf-8")], headersEnded := false }).headersSent

/-- Body of the stdlib 404 error page, as bytes. -/
def error404Body : List Nat := ("File not found".data.map Char.toNat)

/-- Modelled from the spec: GET handling of the stdlib static file server
(SimpleHTTPRequestHandler.do_GET / send_head, not under src/): resolve the
request path under the serving root; if a file is there, reply 200 with its
bytes, otherwise reply 404; either way the header block goes through the
handler's end_headers. The filesystem is a finite map from absolute paths
(segment lists) to file contents. -/
def do_GET (root : List String) (fs : List (List String × List Nat))
    (reqSegs : List String) : Response :=
  let p := translate_path root reqSegs
  match fs.lookup p with
  | some bytes => { status := 200, headers := serve200Headers p, body := bytes }
  | none => { status := 404, headers := serve404Headers, body := error404Body }

/-! ### The main entry point -/

/-- Exceptions distinguished by the script's try/except cascade. -/
inductive Exc where
  | keyboardInterrupt
  | osError (errno : Nat) (msg : String)
  | other (name : String)
deriving DecidableEq

/-- How a run of the try-block body ends: either the TCPServer constructor
(the bind) raises, or the bind succeeds and serve_forever — which never
returns normally — is eventually ended by an exception. -/
inductive BindServe where
  | bindRaises (e : Exc)
  | serveRaises (e : Exc)
deriving DecidableEq

/-- Result of running main: final working directory, the address actually
bound (if any), the lines printed to stdout, and the exception that
propagated out of main (none means main returned, exit code 0). -/
structure RunResult where
  cwd : String
  bound : Option (String × Nat)
  output : List String
  propagated : Option Exc
deriving DecidableEq

/-- The banner lines printed after the server is constructed, lines 27 to 36
of the source. The second line interpolates os.getcwd(); the sixth print
starts with an explicit newline. -/
def bannerLines (cwd : String) : List String :=
  ["🚀 Test server started!",
   "📁 Serving files from: " ++ cwd,
   "🌐 Open your browser and go to: http://localhost:" ++ toString PORT,
   "📋 Test URL: http://localhost:" ++ toString PORT ++ "/index.html",
   "⏹️  Press Ctrl+C to stop the server",
   "\n✨ Features:",
   "   • Theme switcher to test different glass effects",
   "   • Interactive terminal and codex windows",
   "   • Draggable windows",
   "   • Safe testing environment (won't affect production)"]

/-- The shutdown line printed by the KeyboardInterrupt handler, line 39. -/
def shutdownLine : String := "\n🛑 Server stopped"

/-- The lines printed by the OSError handler, lines 40 to 45: a targeted
diagnostic when errno is 48, the generic message otherwise. -/
def oserrorLines (errno : Nat) (msg : String) : List String :=
  if errno = 48 then
    ["❌ Port " ++ toString PORT ++ " is already in use!",
     "💡 Try a different port or stop the existing server"]
  else
    ["❌ Error: " ++ msg]

/-- The except cascade of main, lines 38 to 45: KeyboardInterrupt and OSError
are handled and main returns; any other exception propagates. The lines
printed inside the try block before the exception are passed as pre. -/
def handleExc (cwd : String) (bound : Option (String × Nat))
    (pre : List String) (e : Exc) : RunResult :=
  match e with
  | .keyboardInterrupt =>
      { cwd := cwd, bound := bound, output := pre ++ [shutdownLine], propagated := none }
  | .osError errno msg =>
      { cwd := cwd, bound := bound, output := pre ++ oserrorLines errno msg, propagated := none }
  | .other n =>
      { cwd := cwd, bound := bound, output := pre, propagated := some (.other n) }

/-- The main function, lines 24 to 45. It consumes no command-line arguments
and no environment variables (argv and env are taken only to state that).
If the bind raises, nothing was printed yet and nothing was bound; if the
bind succeeds, the address ("", PORT) is bound and the banner is printed
before serve_forever runs. main never changes the working directory. -/
def mainRun (argv : List String) (env : List (String × String))
    (cwd : String) (bs : BindServe) : RunResult :=
  match argv, env, bs with
  | _, _, .bindRaises e => handleExc cwd none [] e
  | _, _, .serveRaises e => handleExc cwd (some (bindHost, PORT)) (bannerLines cwd) e

/-! ### Module-level behavior -/

/-- Process state the script mutates: the process-wide working directory. -/
structure ProcState where
  cwd : String
deriving DecidableEq

/-- Lines 11 and 12 of the source, executed at module top level:
os.chdir(os.path.dirname(os.path.abspath(file))) sets the process working
directory to the directory containing the script. -/
def moduleChdir (scriptDir : String) (s : ProcState) : ProcState :=
  { s with cwd := scriptDir }

/-- Running the module, lines 11 to 48: the top-level chdir happens
unconditionally when the module is loaded; main() runs only when the module
name is "__main__" (lines 47 and 48). Returns the final process state, the
stdout lines and the exception escaping the module, if any. -/
def runModule (scriptDir moduleName : String) (argv : List String)
    (env : List (String × String)) (s0 : ProcState) (bs : BindServe) :
    ProcState × List String × Option Exc :=
  let s1 := moduleChdir scriptDir s0
  if moduleName = "__main__" then
    let r := mainRun argv env s1.cwd bs
    ({ cwd := r.cwd }, r.output, r.propagated)
  else
    (s1, [], none)

/-! ### Helper lemmas -/

lemma mainRun_cwd (argv : List String) (env : List (String × String))
    (c : String) (bs : BindServe) : (mainRun argv env c bs).cwd = c := by
  cases bs with
  | bindRaises e => cases e <;> rfl
  | serveRaises e => cases e <;> rfl

lemma string_ne_of_head_ne (x y : String) (h : x.data.head? ≠ y.data.head?) :
    x ≠ y := by
  intro he
  exact h (by rw [he])

lemma head_append (a m : String) (c : Char) (hc : a.data.head? = some c) :
    (a ++ m).data.head? = some c := by
  rw [String.data_append]
  cases hd : a.data with
  | nil => rw [hd] at hc; cases hc
  | cons x xs => rw [hd] at hc; simpa using hc

lemma ne_of_heads (x y : String) (c d : Char)
    (hx : x.data.head? = some c) (hy : y.data.head? = some d) (hcd : c ≠ d) :
    x ≠ y := by
  apply string_ne_of_head_ne
  rw [hx, hy]
  simp [hcd]

/-! ### Claim theorems -/

/-- C1: every HTTP response produced by the server, the 404 error responses
included, has a header block in which exactly the three CORS headers, with
their exact values, are added immediately before header finalization: the
overriding end_headers appends exactly corsHeaders to whatever headers were
already sent and then finalizes, and both the 200 and the 404 response of
the GET handler carry a header block that ends with corsHeaders. -/
theorem cors_headers_on_every_response :
    (∀ s : HandlerState, end_headers s =
      { headersSent := s.headersSent ++ corsHeaders, headersEnded := true })
    ∧ ∀ root fs reqSegs, ∃ pre,
        (do_GET root fs reqSegs).headers = pre ++ corsHeaders := by
  constructor
  · intro s
    simp [end_headers, send_header, base_end_headers, corsHeaders]
  · intro root fs reqSegs
    cases h : fs.lookup (translate_path root reqSegs) with
    | some bytes =>
        refine ⟨[("Content-type", guessType (translate_path root reqSegs))], ?_⟩
        simp [do_GET, h, serve200Headers, end_headers, send_header,
          base_end_headers, corsHeaders]
    | none =>
        refine ⟨[("Content-type", "text/html;charset=utf-8")], ?_⟩
        simp [do_GET, h, serve404Headers, end_headers, send_header,
          base_end_headers, corsHeaders]

/-- C6: when serve_forever is ended by a KeyboardInterrupt, main prints the
banner followed by the shutdown message and returns normally — no exception
propagates, so the process exits with code 0. -/
theorem interrupt_clean_shutdown (argv : List String)
    (env : List (String × String)) (cwd : String) :
    mainRun argv env cwd (.serveRaises .keyboardInterrupt) =
      { cwd := cwd, bound := some (bindHost, PORT),
        output := bannerLines cwd ++ [shutdownLine], propagated := none } := rfl

/-- C7: the working directory is set once, when the module is loaded, to the
directory containing the script, and nothing the program does afterwards
changes it: after any full run the process working directory equals
scriptDir, and main itself always leaves the working directory as it found
it. -/
theorem cwd_set_once_immutable (scriptDir moduleName : String)
    (argv : List String) (env : List (String × String)) (s0 : ProcState)
    (bs : BindServe) :
    (runModule scriptDir moduleName argv env s0 bs).1.cwd = scriptDir
    ∧ ∀ c bs2, (mainRun argv env c bs2).cwd = c := by
  refine ⟨?_, fun c bs2 => mainRun_cwd argv env c bs2⟩
  unfold runModule
  by_cases h : moduleName = "__main__"
  · simp [h, moduleChdir, mainRun_cwd]
  · simp [h, moduleChdir]

/-- C8: the listening port is the constant 8000; the bind host is the empty
string, meaning all local interfaces; and no input influences the bind:
main's result is the same for any command-line arguments and any
environment, and whenever an address is bound it is exactly ("", 8000). -/
theorem port_fixed_all_interfaces :
    PORT = 8000 ∧ bindHost = ""
    ∧ ∀ (argv argv2 : List String) (env env2 : List (String × String))
        (cwd : String) (bs : BindServe),
        mainRun argv env cwd bs = mainRun argv2 env2 cwd bs
        ∧ ∀ b ∈ (mainRun argv env cwd bs).bound, b = ("", 8000) := by
  refine ⟨rfl, rfl, fun argv argv2 env env2 cwd bs => ⟨?_, ?_⟩⟩
  · cases bs <;> rfl
  · intro b hb
    cases bs with
    | bindRaises e => cases e <;> simp [mainRun, handleExc] at hb
    | serveRaises e =>
        cases e <;> simp [mainRun, handleExc, bindHost, PORT] at hb <;>
          exact hb.symm

/-- C9: the chdir happens at module import time, before main is invoked:
loading the module under any name other than "__main__" already sets the
process working directory to the script's directory while main never runs —
no output is produced and nothing propagates. -/
theorem import_time_chdir (scriptDir moduleName : String) (argv : List String)
    (env : List (String × String)) (s0 : ProcState) (bs : BindServe)
    (h : moduleName ≠ "__main__") :
    runModule scriptDir moduleName argv env s0 bs
      = ({ cwd := scriptDir }, [], none) := by
  unfold runModule
  simp [h, moduleChdir]

/-- Witness for C9 at a concrete import: the module imported under the name
"start-test-server" changes the working directory and produces no output. -/
theorem import_time_chdir_witness :
    runModule "/repo/test3" "start-test-server" [] [] { cwd := "/" }
        (.serveRaises .keyboardInterrupt)
      = ({ cwd := "/repo/test3" }, [], none) :=
  import_time_chdir "/repo/test3" "start-test-server" [] []
    { cwd := "/" } (.serveRaises .keyboardInterrupt) (by decide)

/-- C2 counterexample: the claim promises detection of the address-in-use
condition on every platform, but the source compares errno against the
hardcoded value 48, which is the macOS/BSD code; on Linux the
address-in-use errno is 98, and there main prints the generic error
message instead of the targeted port diagnostic. -/
theorem eaddrinuse_linux_generic_message :
    eaddrinuse Platform.linux ≠ 48
    ∧ mainRun [] [] "/repo/test3"
        (.bindRaises (.osError (eaddrinuse Platform.linux)
          "[Errno 98] Address already in use"))
      = { cwd := "/repo/test3", bound := none,
          output := ["❌ Error: [Errno 98] Address already in use"],
          propagated := none } := by
  refine ⟨by decide, ?_⟩
  rfl

/-- C2 amended: if binding fails with an OSError whose errno equals 48 (the
macOS/BSD address-in-use code, the one the source hardcodes), main prints
the targeted diagnostic suggesting a different port; for any other errno —
other platforms' address-in-use codes included — it prints the generic
error message; in both cases nothing was bound and main returns without
raising, so the process exits without serving. -/
theorem bind_failure_diagnostics (argv : List String)
    (env : List (String × String)) (cwd msg : String) (errno : Nat) :
    (mainRun argv env cwd (.bindRaises (.osError errno msg))).propagated = none
    ∧ (mainRun argv env cwd (.bindRaises (.osError errno msg))).bound = none
    ∧ (mainRun argv env cwd (.bindRaises (.osError errno msg))).output
      = (if errno = 48 then
          ["❌ Port 8000 is already in use!",
           "💡 Try a different port or stop the existing server"]
        else ["❌ Error: " ++ msg]) := by
  refine ⟨rfl, rfl, ?_⟩
  simp only [mainRun, handleExc, oserrorLines, List.nil_append]
  rfl

/-- C3 counterexample: an exception that is neither a KeyboardInterrupt nor
an OSError — for instance a UnicodeEncodeError raised while starting up —
is not caught by main's except cascade and propagates past the main entry
point, contradicting the claim that every startup error is caught and leads
to a clean exit with code 0. -/
theorem unhandled_exception_propagates :
    (mainRun [] [] "/repo/test3"
        (.bindRaises (.other "UnicodeEncodeError"))).propagated
      = some (.other "UnicodeEncodeError") := rfl

/-- C3 amended: startup errors of the two anticipated kinds are caught at the
top level of main and converted to a human-readable message, and main then
returns normally (exit code 0): any OSError produces a non-empty diagnostic
and no propagation, and a KeyboardInterrupt produces the shutdown message
and no propagation; an exception of any other type, however, propagates
past main unchanged. -/
theorem startup_error_handling (argv : List String)
    (env : List (String × String)) (cwd : String) :
    (∀ errno msg,
        (mainRun argv env cwd (.bindRaises (.osError errno msg))).propagated
          = none
        ∧ (mainRun argv env cwd (.bindRaises (.osError errno msg))).output ≠ [])
    ∧ (mainRun argv env cwd (.bindRaises .keyboardInterrupt)).propagated = none
    ∧ (mainRun argv env cwd (.bindRaises .keyboardInterrupt)).output
        = [shutdownLine]
    ∧ ∀ n, (mainRun argv env cwd (.bindRaises (.other n))).propagated
        = some (.other n) := by
  refine ⟨fun errno msg => ⟨rfl, ?_⟩, rfl, rfl, fun n => rfl⟩
  simp only [mainRun, handleExc, List.nil_append, oserrorLines]
  by_cases h : errno = 48 <;> simp [h]

/-- C10: the banner is printed only after the bind succeeded: whenever the
TCPServer constructor raises — whatever the exception — no line of the
startup banner appears in main's output. -/
theorem no_banner_without_bind (argv : List String)
    (env : List (String × String)) (cwd : String) (e : Exc) (b : String)
    (hb : b ∈ bannerLines cwd) :
    b ∉ (mainRun argv env cwd (.bindRaises e)).output := by
  simp only [bannerLines, List.mem_cons, List.not_mem_nil, or_false] at hb
  cases e with
  | keyboardInterrupt =>
      simp only [mainRun, handleExc, List.nil_append, shutdownLine,
        List.mem_singleton]
      rcases hb with rfl | rfl | rfl | rfl | rfl | rfl | rfl | rfl | rfl | rfl
      · decide
      · exact ne_of_heads _ _ '📁' '\n'
          (head_append _ _ _ (by decide)) (by decide) (by decide)
      all_goals decide
  | osError errno msg =>
      simp only [mainRun, handleExc, List.nil_append, oserrorLines]
      by_cases h48 : errno = 48 <;>
        simp only [h48, if_true, if_false, List.mem_cons, List.not_mem_nil,
          or_false, not_or, List.mem_singleton]
      · rcases hb with rfl | rfl | rfl | rfl | rfl | rfl | rfl | rfl | rfl | rfl
        · decide
        · exact ⟨ne_of_heads _ _ '📁' '❌'
              (head_append _ _ _ (by decide)) (by decide) (by decide),
            ne_of_heads _ _ '📁' '💡'
              (head_append _ _ _ (by decide)) (by decide) (by decide)⟩
        all_goals decide
      · rcases hb with rfl | rfl | rfl | rfl | rfl | rfl | rfl | rfl | rfl | rfl
        · exact ne_of_heads _ _ '🚀' '❌'
            (by decide) (head_append _ _ _ (by decide)) (by decide)
        · exact ne_of_heads _ _ '📁' '❌'
            (head_append _ _ _ (by decide)) (head_append _ _ _ (by decide))
            (by decide)
        · exact ne_of_heads _ _ '🌐' '❌'
            (head_append _ _ _ (by decide)) (head_append _ _ _ (by decide))
            (by decide)
        · exact ne_of_heads _ _ '📋' '❌'
            (head_append _ _ _ (by decide)) (head_append _ _ _ (by decide))
            (by decide)
        · exact ne_of_heads _ _ '⏹' '❌'
            (by decide) (head_append _ _ _ (by decide)) (by decide)
        · exact ne_of_heads _ _ '\n' '❌'
            (by decide) (head_append _ _ _ (by decide)) (by decide)
        all_goals
          exact ne_of_heads _ _ ' ' '❌' (by decide)
            (head_append _ _ _ (by decide)) (by decide)
  | other n =>
      simp [mainRun, handleExc]

/-- Witness for C10 at a concrete bind failure: the first banner line is in
the banner and absent from the output when the bind raises the
port-in-use OSError. -/
theorem no_banner_without_bind_witness :
    "🚀 Test server started!" ∉
      (mainRun [] [] "/repo/test3"
        (.bindRaises (.osError 48 "[Errno 48] Address already in use"))).output :=
  no_banner_without_bind [] [] "/repo/test3"
    (.osError 48 "[Errno 48] Address already in use")
    "🚀 Test server started!" (by decide)

/-- C4: for every file that exists under the serving root, a GET request for
its root-relative path — any genuine relative path, meaning no segment is
empty, the current-directory marker or the parent-directory marker —
returns status 200 with a body byte-identical to the file's contents. -/
theorem existing_file_served_identically (root : List String)
    (fs : List (List String × List Nat)) (f : List String) (bytes : List Nat)
    (hsafe : ∀ w ∈ f, w ≠ "" ∧ w ≠ "." ∧ w ≠ "..")
    (hfile : fs.lookup (root ++ f) = some bytes) :
    (do_GET root fs f).status = 200 ∧ (do_GET root fs f).body = bytes := by
  have htp : translate_path root f = root ++ f := by
    unfold translate_path
    congr 1
    apply List.filter_eq_self.mpr
    intro w hw
    rcases hsafe w hw with ⟨h1, h2, h3⟩
    simp [h1, h2, h3]
  constructor <;> simp [do_GET, htp, hfile]

/-- Witness for C4 at a concrete filesystem: the file index.html under the
root is served with status 200 and its exact bytes. -/
theorem existing_file_served_identically_witness :
    (do_GET ["srv"] [(["srv", "index.html"], [104, 105])] ["index.html"]).status
      = 200
    ∧ (do_GET ["srv"] [(["srv", "index.html"], [104, 105])] ["index.html"]).body
      = [104, 105] :=
  existing_file_served_identically ["srv"]
    [(["srv", "index.html"], [104, 105])] ["index.html"] [104, 105]
    (by decide) (by decide)

/-- C5: every served path resolves within the serving root — the resolved
path is the root extended by segments none of which is a parent-directory
marker, so parent-directory traversal in the request can never reach
outside the root — and whatever body a 200 response carries is the content
the filesystem holds at that in-root resolved path. -/
theorem served_path_within_root (root : List String)
    (fs : List (List String × List Nat)) (reqSegs : List String)
    (h200 : (do_GET root fs reqSegs).status = 200) :
    (∃ safe, translate_path root reqSegs = root ++ safe
      ∧ ∀ w ∈ safe, w ≠ "..")
    ∧ fs.lookup (translate_path root reqSegs)
      = some (do_GET root fs reqSegs).body := by
  constructor
  · refine ⟨reqSegs.filter (fun w => !(w == "" || w == "." || w == "..")),
      rfl, ?_⟩
    intro w hw
    have hp := List.of_mem_filter hw
    simp only [Bool.not_eq_true', Bool.or_eq_false_iff,
      beq_eq_false_iff_ne] at hp
    exact hp.2
  · cases h : fs.lookup (translate_path root reqSegs) with
    | none =>
        exfalso
        simp [do_GET, h] at h200
    | some bytes =>
        simp [do_GET, h]

/-- Witness for C5 at a concrete traversal request: the request path
containing a parent-directory segment resolves inside the root and the
content returned is the in-root file's content. -/
theorem served_path_within_root_witness :
    (∃ safe, translate_path ["srv"] ["..", "a.txt"] = ["srv"] ++ safe
      ∧ ∀ w ∈ safe, w ≠ "..")
    ∧ List.lookup (translate_path ["srv"] ["..", "a.txt"])
        [(["srv", "a.txt"], [97])]
      = some (do_GET ["srv"] [(["srv", "a.txt"], [97])] ["..", "a.txt"]).body :=
  served_path_within_root ["srv"] [(["srv", "a.txt"], [97])] ["..", "a.txt"]
    (by decide)

end TestServer
